import Mathlib

/-!
Verification development for the NacosX service-lifecycle controller
(`src/nacosx/core.py`).

The registry client is an external collaborator; we model each registry
call's outcome (success or raised exception) as a Boolean oracle supplied
to the embedded operation.  Every operation returns the successor state
together with the list of observable events it produced (registry calls,
sleeps, log lines), so that counting registry calls and log lines is a
property of the returned trace.
-/

namespace NacosX

/-- Observable events produced by the controller: registry-client calls
(with their outcome), sleeps, and log lines at each severity. -/
inductive Event where
  | constructClient
  | addInstance (ok : Bool)
  | removeInstance (ok : Bool)
  | sendHeartbeat (ok : Bool)
  | sleep
  | logDebug
  | logInfo
  | logWarning
  | logError
  deriving DecidableEq, Repr

/-- Mutable state of a `NacosService` instance: whether `_client` is
non-None, the `_registered` flag, the `_heartbeat_stop` event, and whether
a live heartbeat thread exists (`_heartbeat_thread` is set and alive). -/
structure ServiceState where
  clientInit : Bool
  registered : Bool
  heartbeatStop : Bool
  heartbeatThread : Bool
  deriving DecidableEq, Repr

/-- Fresh state as set up by `NacosService.__init__`. -/
def initialState : ServiceState :=
  { clientInit := false, registered := false,
    heartbeatStop := false, heartbeatThread := false }

/-- `NacosService._init_client`: lazily constructs the client under the
lock; a no-op when the client already exists. -/
def init_client (s : ServiceState) : ServiceState × List Event :=
  if s.clientInit then (s, [])
  else ({ s with clientInit := true }, [Event.constructClient, Event.logInfo])

/-- `NacosService._register_once` with the outcome of the
`add_naming_instance` call supplied by the oracle `ok`.  On success it sets
`_registered = True` and logs info; on failure (the call raised) it logs a
warning and the traceback at debug, leaving the state untouched. -/
def register_once (ok : Bool) (s : ServiceState) :
    ServiceState × Bool × List Event :=
  if ok then
    ({ s with registered := true }, true, [Event.addInstance true, Event.logInfo])
  else
    (s, false, [Event.addInstance false, Event.logWarning, Event.logDebug])

/-- The `for attempt in range(1, retries + 1)` loop of
`register_with_retry`.  `fuel` is the number of iterations left (the
range's length), `attempt` the 1-based index of the current attempt, and
`reg k` the outcome of the k-th `add_naming_instance` call.  After a failed
attempt with `attempt < retries` the loop logs info and sleeps `delay`
before the next attempt. -/
def register_go (reg : Nat → Bool) (retries : Int) (attempt : Nat) :
    Nat → ServiceState → ServiceState × Bool × List Event
  | 0, s => (s, false, [])
  | fuel + 1, s =>
    let r := register_once (reg attempt) s
    if r.2.1 then (r.1, true, r.2.2)
    else if (attempt : Int) < retries then
      let r2 := register_go reg retries (attempt + 1) fuel r.1
      (r2.1, r2.2.1, r.2.2 ++ Event.logInfo :: Event.sleep :: r2.2.2)
    else (r.1, false, r.2.2)

/-- `NacosService.register_with_retry(retries, delay)`: initializes the
client, then attempts registration up to `retries` times.  Python's
`range(1, retries + 1)` is empty when `retries <= 0`. -/
def register_with_retry (reg : Nat → Bool) (retries : Int) (s : ServiceState) :
    ServiceState × Bool × List Event :=
  let i := init_client s
  let r := register_go reg retries 1 retries.toNat i.1
  (r.1, r.2.1, i.2 ++ r.2.2)

/-- `NacosService._remove_once` with the outcome of the
`remove_naming_instance` call supplied by `ok`.  On success it sets
`_registered = False` and logs info; on failure it logs a warning plus
debug traceback and leaves the state untouched. -/
def remove_once (ok : Bool) (s : ServiceState) :
    ServiceState × Bool × List Event :=
  if ok then
    ({ s with registered := false }, true, [Event.removeInstance true, Event.logInfo])
  else
    (s, false, [Event.removeInstance false, Event.logWarning, Event.logDebug])

/-- Configuration fields of `NacosService` used by the lifecycle
operations. -/
structure Config where
  ephemeral : Bool
  register_retries : Int
  heartbeat_max_failures : Nat
  deriving Repr

/-- `NacosService.start`: `_init_client`, then `register_with_retry` with
the configured defaults.  On failure it logs an error and returns; on
success, for an ephemeral descriptor, it clears `_heartbeat_stop` and
starts the heartbeat thread, logging info. -/
def start (reg : Nat → Bool) (cfg : Config) (s : ServiceState) :
    ServiceState × List Event :=
  let i := init_client s
  let r := register_with_retry reg cfg.register_retries i.1
  if r.2.1 = false then
    (r.1, i.2 ++ r.2.2 ++ [Event.logError])
  else if cfg.ephemeral then
    ({ r.1 with heartbeatStop := false, heartbeatThread := true },
      i.2 ++ r.2.2 ++ [Event.logInfo])
  else (r.1, i.2 ++ r.2.2)

/-- `NacosService.stop`: if a live heartbeat thread exists, set
`_heartbeat_stop` and join it (modelled as the thread terminating); then
unconditionally attempt `_remove_once`, whose failure the outer
`try/except: pass` swallows.  `removeOk` is the outcome of the
`remove_naming_instance` call. -/
def stop (removeOk : Bool) (s : ServiceState) : ServiceState × List Event :=
  let s1 :=
    if s.heartbeatThread then
      { s with heartbeatStop := true, heartbeatThread := false }
    else s
  let r := remove_once removeOk s1
  (r.1, r.2.2)

/-- Event classifiers and registry-call counters over a trace. -/
def isAdd : Event → Bool
  | Event.addInstance _ => true
  | _ => false

def isRemove : Event → Bool
  | Event.removeInstance _ => true
  | _ => false

def isSend : Event → Bool
  | Event.sendHeartbeat _ => true
  | _ => false

def isSleep : Event → Bool
  | Event.sleep => true
  | _ => false

def countAdds (evs : List Event) : Nat := evs.countP (fun e => isAdd e)

def countRemoves (evs : List Event) : Nat := evs.countP (fun e => isRemove e)

def countSleeps (evs : List Event) : Nat := evs.countP (fun e => isSleep e)

/-- Trace of `m + 1` failed registration attempts: the inter-attempt
info-log and sleep stand between consecutive attempts, and nothing
follows the final attempt. -/
def failRun : Nat → List Event
  | 0 => [Event.addInstance false, Event.logWarning, Event.logDebug]
  | m + 1 =>
    Event.addInstance false :: Event.logWarning :: Event.logDebug ::
      Event.logInfo :: Event.sleep :: failRun m

/-- Trace of `n` failed registration attempts (each followed by the
inter-attempt info-log and sleep) ending in one successful attempt. -/
def succAfterFails : Nat → List Event
  | 0 => [Event.addInstance true, Event.logInfo]
  | n + 1 =>
    Event.addInstance false :: Event.logWarning :: Event.logDebug ::
      Event.logInfo :: Event.sleep :: succAfterFails n

/-- Per-iteration inputs of `_heartbeat_loop`: whether
`_heartbeat_stop.wait(heartbeat_interval)` observed the stop signal,
the outcome of the `send_heartbeat` call, whether
`_heartbeat_stop.wait(heartbeat_retry_delay)` observed the stop signal,
the outcome of the self-healing `remove_naming_instance` call, and the
oracle for the self-healing `register_with_retry` attempts. -/
structure HbInput where
  stopAtInterval : Bool
  hbOk : Bool
  stopAtRetry : Bool
  removeOk : Bool
  reg : Nat → Bool

/-- Result of one iteration of the heartbeat loop body: either the loop
breaks, or it continues with a new consecutive-failure count. -/
inductive StepResult where
  | halt (s : ServiceState) (evs : List Event)
  | next (failCount : Nat) (s : ServiceState) (evs : List Event)

/-- One iteration of `NacosService._heartbeat_loop`'s `while` body.
Waits on the stop signal; skips the send for non-ephemeral descriptors;
on a successful send resets `fail_count` to 0; on a failed send
increments it, logs warning and debug, waits on the stop signal again,
and when `fail_count >= heartbeat_max_failures` performs self-healing:
a best-effort `remove_naming_instance` whose error is silently ignored
(`except Exception: pass`), then `register_with_retry()` with the
configured defaults — resetting `fail_count` to 0 and logging info on
success, logging an error on failure. -/
def heartbeat_iter (cfg : Config) (inp : HbInput) (failCount : Nat)
    (s : ServiceState) : StepResult :=
  if inp.stopAtInterval then StepResult.halt s []
  else if cfg.ephemeral = false then StepResult.next failCount s []
  else if inp.hbOk then StepResult.next 0 s [Event.sendHeartbeat true]
  else
    let fc := failCount + 1
    let ev0 := [Event.sendHeartbeat false, Event.logWarning, Event.logDebug]
    if inp.stopAtRetry then StepResult.halt s ev0
    else if cfg.heartbeat_max_failures ≤ fc then
      let r := register_with_retry inp.reg cfg.register_retries s
      if r.2.1 then
        StepResult.next 0 r.1
          (ev0 ++ Event.logWarning :: Event.removeInstance inp.removeOk ::
            r.2.2 ++ [Event.logInfo])
      else
        StepResult.next fc r.1
          (ev0 ++ Event.logWarning :: Event.removeInstance inp.removeOk ::
            r.2.2 ++ [Event.logError])
    else StepResult.next fc s ev0

/-- The heartbeat loop run over a finite list of per-iteration inputs,
starting from failure count `failCount`.  Stops early when an iteration
observes the stop signal. -/
def heartbeat_run (cfg : Config) :
    List HbInput → Nat → ServiceState → Nat × ServiceState × List Event
  | [], fc, s => (fc, s, [])
  | inp :: rest, fc, s =>
    match heartbeat_iter cfg inp fc s with
    | StepResult.halt s' evs => (fc, s', evs)
    | StepResult.next fc' s' evs =>
      let r := heartbeat_run cfg rest fc' s'
      (r.1, r.2.1, evs ++ r.2.2)

/-- The outcomes of the `send_heartbeat` calls recorded in a trace, in
order. -/
def sendOutcomes (evs : List Event) : List Bool :=
  evs.filterMap fun e =>
    match e with
    | Event.sendHeartbeat b => some b
    | _ => none

/-- Pure counter semantics of the heartbeat failure counter over a list
of send outcomes: a successful send resets it to 0, a failed send
increments it. -/
def tfAux (k : Nat) : List Bool → Nat
  | [] => k
  | b :: rest => tfAux (if b then 0 else k + 1) rest

/-- Python's `s.rsplit(sep, 1)` restricted to `sep = colon`: splits at the
LAST colon, returning the part before and the part after it, or `none`
when the string has no colon. -/
def rsplitColon : List Char → Option (List Char × List Char)
  | [] => none
  | c :: rest =>
    match rsplitColon rest with
    | some (a, b) => some (c :: a, b)
    | none => if c = ':' then some ([], rest) else none

/-- One decimal digit's value, `none` for a non-digit character. -/
def digitVal (c : Char) : Option Nat :=
  if c.isDigit then some (c.toNat - 48) else none

/-- A non-empty all-digit string as a natural number. -/
def parseNatDigits (l : List Char) : Option Nat :=
  match l with
  | [] => none
  | _ =>
    l.foldl
      (fun acc c =>
        match acc, digitVal c with
        | some a, some d => some (a * 10 + d)
        | _, _ => none)
      (some 0)

/-- Python's `int(str)` as used on the port substring: an optional sign
followed by at least one decimal digit. -/
def parsePyInt (l : List Char) : Option Int :=
  match l with
  | '-' :: rest => (parseNatDigits rest).map (fun n => -(n : Int))
  | '+' :: rest => (parseNatDigits rest).map (fun n => (n : Int))
  | _ => (parseNatDigits l).map (fun n => (n : Int))

/-- What the decorator's `wrapper` does before (or instead of) touching
the registry: run the wrapped work directly without registration, raise
`ValueError`, or construct a `NacosService` with the parsed ip and port
and activate it around the wrapped work. -/
inductive WrapperAction where
  | runDirect
  | raiseValueError
  | activate (ip : List Char) (port : Int)
  deriving DecidableEq, Repr

/-- The validation prefix of `nacos_registry`'s `wrapper`, up to the
construction of the `NacosService`: checks `enabled`, then that
`nacos_addr` and `service_name` are non-empty, then that `service_addr`
is non-empty and contains a colon, then parses `service_addr` with
`rsplit(colon, 1)` and `int` on the port part.  On any validation
failure it raises `ValueError` when `raise_on_register_fail` is set,
otherwise prints a warning and runs the wrapped work directly.  Only
the `activate` outcome ever constructs the service (and hence can lead
to registry calls). -/
def wrapper_check (enabled raiseOnFail : Bool)
    (nacos_addr service_name service_addr : List Char) : WrapperAction :=
  if enabled = false then WrapperAction.runDirect
  else if nacos_addr = [] then
    if raiseOnFail then WrapperAction.raiseValueError else WrapperAction.runDirect
  else if service_name = [] then
    if raiseOnFail then WrapperAction.raiseValueError else WrapperAction.runDirect
  else if service_addr = [] ∨ service_addr.contains ':' = false then
    if raiseOnFail then WrapperAction.raiseValueError else WrapperAction.runDirect
  else
    match rsplitColon service_addr with
    | none =>
      if raiseOnFail then WrapperAction.raiseValueError else WrapperAction.runDirect
    | some (ip, portStr) =>
      match parsePyInt portStr with
      | none =>
        if raiseOnFail then WrapperAction.raiseValueError
        else WrapperAction.runDirect
      | some p => WrapperAction.activate ip p

/-- One `except` handler of `NacosService` in `core.py`: where it is,
whether its body emits a log line at warning severity or above, whether
it re-raises the caught exception, and whether it is the double-guarded
deregistration cleanup in `stop` (the `try: self.remove_once / except:
pass`, where `remove_once` itself already logs its own failures). -/
structure CatchSite where
  description : String
  line : Nat
  logsWarningOrAbove : Bool
  reraises : Bool
  isStopCleanupDeregGuard : Bool
  deriving DecidableEq, Repr

/-- Every `except` handler in `NacosService` (controller, heartbeat loop
and signal handling), transcribed from `core.py`. -/
def catchSites : List CatchSite :=
  [ { description := "register_once add_naming_instance failure",
      line := 138, logsWarningOrAbove := true, reraises := false,
      isStopCleanupDeregGuard := false },
    { description := "remove_once remove_naming_instance failure",
      line := 166, logsWarningOrAbove := true, reraises := false,
      isStopCleanupDeregGuard := false },
    { description := "heartbeat send_heartbeat failure",
      line := 188, logsWarningOrAbove := true, reraises := false,
      isStopCleanupDeregGuard := false },
    { description := "self-healing remove_naming_instance failure",
      line := 205, logsWarningOrAbove := false, reraises := false,
      isStopCleanupDeregGuard := false },
    { description := "self-healing outer exception",
      line := 215, logsWarningOrAbove := true, reraises := false,
      isStopCleanupDeregGuard := false },
    { description := "stop heartbeat-thread join failure",
      line := 245, logsWarningOrAbove := true, reraises := false,
      isStopCleanupDeregGuard := false },
    { description := "stop deregistration cleanup",
      line := 250, logsWarningOrAbove := false, reraises := false,
      isStopCleanupDeregGuard := true },
    { description := "signal handler stop failure",
      line := 259, logsWarningOrAbove := true, reraises := false,
      isStopCleanupDeregGuard := false },
    { description := "signal handler original-handler invocation failure",
      line := 268, logsWarningOrAbove := false, reraises := false,
      isStopCleanupDeregGuard := false },
    { description := "signal handler SystemExit",
      line := 274, logsWarningOrAbove := false, reraises := true,
      isStopCleanupDeregGuard := false },
    { description := "install_signal_handlers failure",
      line := 284, logsWarningOrAbove := true, reraises := false,
      isStopCleanupDeregGuard := false },
    { description := "restore_signal_handlers failure",
      line := 295, logsWarningOrAbove := true, reraises := false,
      isStopCleanupDeregGuard := false } ]

/-! ### Basic facts about the embedded operations -/

theorem init_client_fields (s : ServiceState) :
    (init_client s).1.clientInit = true ∧
    (init_client s).1.registered = s.registered ∧
    (init_client s).1.heartbeatStop = s.heartbeatStop ∧
    (init_client s).1.heartbeatThread = s.heartbeatThread := by
  by_cases h : s.clientInit <;> simp [init_client, h]

theorem init_client_trace (s : ServiceState) :
    countAdds (init_client s).2 = 0 ∧ countSleeps (init_client s).2 = 0 ∧
    sendOutcomes (init_client s).2 = [] ∧
    (init_client s).2.any (fun e => isRemove e) = false := by
  by_cases h : s.clientInit <;>
    simp [init_client, h, countAdds, countSleeps, sendOutcomes, isRemove,
      isAdd, isSleep]

theorem register_go_preserve (reg : Nat → Bool) (retries : Int) :
    ∀ (fuel attempt : Nat) (s : ServiceState),
      (register_go reg retries attempt fuel s).1.heartbeatStop = s.heartbeatStop ∧
      (register_go reg retries attempt fuel s).1.heartbeatThread = s.heartbeatThread ∧
      (register_go reg retries attempt fuel s).1.clientInit = s.clientInit := by
  intro fuel
  induction fuel with
  | zero => intro attempt s; simp [register_go]
  | succ f ih =>
    intro attempt s
    by_cases hr : reg attempt <;>
      by_cases hlt : (attempt : Int) < retries <;>
        simp [register_go, register_once, hr, hlt, ih]

theorem register_go_unfold (reg : Nat → Bool) (retries : Int)
    (attempt f : Nat) (s : ServiceState) :
    register_go reg retries attempt (f + 1) s =
      if reg attempt then
        ({ s with registered := true }, true,
          [Event.addInstance true, Event.logInfo])
      else if (attempt : Int) < retries then
        ((register_go reg retries (attempt + 1) f s).1,
          (register_go reg retries (attempt + 1) f s).2.1,
          Event.addInstance false :: Event.logWarning :: Event.logDebug ::
            Event.logInfo :: Event.sleep ::
            (register_go reg retries (attempt + 1) f s).2.2)
      else
        (s, false, [Event.addInstance false, Event.logWarning, Event.logDebug]) := by
  by_cases hr : reg attempt <;>
    by_cases hlt : (attempt : Int) < retries <;>
      simp [register_go, register_once, hr, hlt]

theorem register_go_false (reg : Nat → Bool) (retries : Int) :
    ∀ (fuel attempt : Nat) (s : ServiceState),
      (register_go reg retries attempt fuel s).2.1 = false →
      (register_go reg retries attempt fuel s).1 = s := by
  intro fuel
  induction fuel with
  | zero => intro attempt s _; simp [register_go]
  | succ f ih =>
    intro attempt s h
    rw [register_go_unfold] at h ⊢
    by_cases hr : reg attempt
    · simp [hr] at h
    · by_cases hlt : (attempt : Int) < retries
      · simp only [hr, hlt, if_true, if_false, Bool.false_eq_true,
          ite_true, ite_false] at h ⊢
        exact ih (attempt + 1) s h
      · simp [hr, hlt]

theorem register_go_no_send (reg : Nat → Bool) (retries : Int) :
    ∀ (fuel attempt : Nat) (s : ServiceState),
      sendOutcomes (register_go reg retries attempt fuel s).2.2 = [] := by
  intro fuel
  induction fuel with
  | zero => intro attempt s; simp [register_go, sendOutcomes]
  | succ f ih =>
    intro attempt s
    rw [register_go_unfold]
    by_cases hr : reg attempt
    · simp [hr, sendOutcomes]
    · by_cases hlt : (attempt : Int) < retries
      · simp only [hr, hlt, Bool.false_eq_true, ite_true, ite_false]
        simp only [sendOutcomes, List.filterMap_cons] at ih ⊢
        exact ih (attempt + 1) s
      · simp [hr, hlt, sendOutcomes]

theorem register_go_no_remove (reg : Nat → Bool) (retries : Int) :
    ∀ (fuel attempt : Nat) (s : ServiceState),
      ((register_go reg retries attempt fuel s).2.2).any (fun e => isRemove e)
        = false := by
  intro fuel
  induction fuel with
  | zero => intro attempt s; simp [register_go]
  | succ f ih =>
    intro attempt s
    rw [register_go_unfold]
    by_cases hr : reg attempt
    · simp [hr, isRemove]
    · by_cases hlt : (attempt : Int) < retries
      · simp only [hr, hlt, Bool.false_eq_true, ite_true, ite_false]
        simp only [List.any_cons, isRemove, Bool.false_or]
        exact ih (attempt + 1) s
      · simp [hr, hlt, isRemove]

theorem register_with_retry_preserve (reg : Nat → Bool) (retries : Int)
    (s : ServiceState) :
    (register_with_retry reg retries s).1.heartbeatStop = s.heartbeatStop ∧
    (register_with_retry reg retries s).1.heartbeatThread = s.heartbeatThread ∧
    (register_with_retry reg retries s).1.clientInit = true := by
  have hp := register_go_preserve reg retries retries.toNat 1 (init_client s).1
  have hi := init_client_fields s
  simp only [register_with_retry]
  exact ⟨hp.1.trans hi.2.2.1, hp.2.1.trans hi.2.2.2, hp.2.2.trans hi.1⟩

theorem register_with_retry_false (reg : Nat → Bool) (retries : Int)
    (s : ServiceState)
    (h : (register_with_retry reg retries s).2.1 = false) :
    (register_with_retry reg retries s).1 = (init_client s).1 := by
  simp only [register_with_retry] at h ⊢
  exact register_go_false reg retries retries.toNat 1 (init_client s).1 h

theorem sendOutcomes_append (a b : List Event) :
    sendOutcomes (a ++ b) = sendOutcomes a ++ sendOutcomes b := by
  simp [sendOutcomes, List.filterMap_append]

theorem register_with_retry_no_send (reg : Nat → Bool) (retries : Int)
    (s : ServiceState) :
    sendOutcomes (register_with_retry reg retries s).2.2 = [] := by
  simp only [register_with_retry, sendOutcomes_append]
  rw [(init_client_trace s).2.2.1, register_go_no_send]
  simp

theorem getLast?_cons_of_ne_nil (a : Event) (l : List Event) (h : l ≠ []) :
    (a :: l).getLast? = l.getLast? := by
  cases l with
  | nil => exact absurd rfl h
  | cons b t => exact List.getLast?_cons_cons

theorem failRun_ne_nil (m : Nat) : failRun m ≠ [] := by
  cases m <;> simp [failRun]

theorem succAfterFails_ne_nil (m : Nat) : succAfterFails m ≠ [] := by
  cases m <;> simp [succAfterFails]

theorem failRun_counts : ∀ m : Nat,
    countAdds (failRun m) = m + 1 ∧ countSleeps (failRun m) = m ∧
    (failRun m).getLast? = some Event.logDebug := by
  intro m
  induction m with
  | zero => simp [failRun, countAdds, countSleeps, isAdd, isSleep]
  | succ m ih =>
    obtain ⟨ih1, ih2, ih3⟩ := ih
    refine ⟨?_, ?_, ?_⟩
    · simp [failRun, countAdds, List.countP_cons, isAdd] at ih1 ⊢; omega
    · simp [failRun, countSleeps, List.countP_cons, isSleep] at ih2 ⊢; omega
    · show (Event.addInstance false :: Event.logWarning :: Event.logDebug ::
        Event.logInfo :: Event.sleep :: failRun m).getLast? = some Event.logDebug
      rw [List.getLast?_cons_cons, List.getLast?_cons_cons,
        List.getLast?_cons_cons, List.getLast?_cons_cons,
        getLast?_cons_of_ne_nil _ _ (failRun_ne_nil m), ih3]

theorem succAfterFails_counts : ∀ m : Nat,
    countAdds (succAfterFails m) = m + 1 ∧
    countSleeps (succAfterFails m) = m ∧
    (succAfterFails m).getLast? = some Event.logInfo := by
  intro m
  induction m with
  | zero => simp [succAfterFails, countAdds, countSleeps, isAdd, isSleep]
  | succ m ih =>
    obtain ⟨ih1, ih2, ih3⟩ := ih
    refine ⟨?_, ?_, ?_⟩
    · simp [succAfterFails, countAdds, List.countP_cons, isAdd] at ih1 ⊢; omega
    · simp [succAfterFails, countSleeps, List.countP_cons, isSleep] at ih2 ⊢
      omega
    · show (Event.addInstance false :: Event.logWarning :: Event.logDebug ::
        Event.logInfo :: Event.sleep :: succAfterFails m).getLast? =
          some Event.logInfo
      rw [List.getLast?_cons_cons, List.getLast?_cons_cons,
        List.getLast?_cons_cons, List.getLast?_cons_cons,
        getLast?_cons_of_ne_nil _ _ (succAfterFails_ne_nil m), ih3]

/-! ### Closed forms of the registration retry loop -/

theorem register_go_allfail (reg : Nat → Bool) (retries : Int) :
    ∀ (f attempt : Nat) (s : ServiceState),
      (attempt : Int) + (f + 1) = retries + 1 →
      (∀ k, attempt ≤ k → k ≤ attempt + f → reg k = false) →
      register_go reg retries attempt (f + 1) s = (s, false, failRun f) := by
  intro f
  induction f with
  | zero =>
    intro attempt s hsum hfail
    have hr : reg attempt = false := hfail attempt le_rfl (by omega)
    have hlt : ¬ ((attempt : Int) < retries) := by omega
    rw [register_go_unfold]
    simp [hr, hlt, failRun]
  | succ f ih =>
    intro attempt s hsum hfail
    have hr : reg attempt = false := hfail attempt le_rfl (by omega)
    have hlt : (attempt : Int) < retries := by push_cast at hsum ⊢; omega
    rw [register_go_unfold]
    rw [ih (attempt + 1) s (by push_cast at hsum ⊢; omega)
      (fun k h1 h2 => hfail k (by omega) (by omega))]
    simp [hr, hlt, failRun]

theorem register_go_succCase (reg : Nat → Bool) (retries : Int) :
    ∀ (fuel attempt k : Nat) (s : ServiceState),
      attempt ≤ k → k < attempt + fuel →
      (attempt : Int) + fuel = retries + 1 →
      reg k = true →
      (∀ j, attempt ≤ j → j < k → reg j = false) →
      register_go reg retries attempt fuel s =
        ({ s with registered := true }, true, succAfterFails (k - attempt)) := by
  intro fuel
  induction fuel with
  | zero => intro attempt k s hak hkf _ _ _; omega
  | succ f ih =>
    intro attempt k s hak hkf hsum hks hprev
    by_cases hek : attempt = k
    · subst hek
      rw [register_go_unfold]
      simp [hks, succAfterFails]
    · have haltk : attempt < k := lt_of_le_of_ne hak hek
      have hr : reg attempt = false := hprev attempt le_rfl haltk
      have hlt : (attempt : Int) < retries := by push_cast at hsum ⊢; omega
      rw [register_go_unfold]
      rw [ih (attempt + 1) k s (by omega) (by omega)
        (by push_cast at hsum ⊢; omega) hks
        (fun j h1 h2 => hprev j (by omega) h2)]
      have hm : k - attempt = (k - (attempt + 1)) + 1 := by omega
      simp [hr, hlt, hm, succAfterFails]

/-! ### Pure counter semantics -/

theorem tfAux_append : ∀ (l1 l2 : List Bool) (k : Nat),
    tfAux k (l1 ++ l2) = tfAux (tfAux k l1) l2 := by
  intro l1
  induction l1 with
  | nil => intro l2 k; simp [tfAux]
  | cons b rest ih => intro l2 k; simp [tfAux, ih]

theorem tfAux_mono : ∀ (l : List Bool) (k k' : Nat), k ≤ k' →
    tfAux k l ≤ tfAux k' l := by
  intro l
  induction l with
  | nil => intro k k' h; simpa [tfAux] using h
  | cons b rest ih =>
    intro k k' h
    cases b
    · exact ih (k + 1) (k' + 1) (by omega)
    · simp [tfAux]

theorem tfAux_le : ∀ (l : List Bool) (k : Nat), tfAux k l ≤ k + l.length := by
  intro l
  induction l with
  | nil => intro k; simp [tfAux]
  | cons b rest ih =>
    intro k
    cases b
    · have h1 := ih (k + 1)
      simp only [tfAux, List.length_cons]
      simp only [Bool.false_eq_true, if_false]
      omega
    · have h0 := ih 0
      simp only [tfAux, List.length_cons]
      simp only [if_true]
      omega

theorem tfAux_drop : ∀ (l : List Bool) (k m : Nat), m ≤ tfAux k l →
    ((l.drop (l.length - m)).all (fun b => !b)) = true := by
  intro l
  induction l with
  | nil => intro k m _; simp
  | cons b rest ih =>
    intro k m h
    by_cases hm : m ≤ rest.length
    · have hlen : (b :: rest).length - m = (rest.length - m) + 1 := by
        simp [List.length_cons]; omega
      rw [hlen, List.drop_succ_cons]
      exact ih _ m h
    · have hb : b = false := by
        cases hbv : b
        · rfl
        · rw [hbv] at h
          simp [tfAux] at h
          have := tfAux_le rest 0
          omega
      rw [hb] at h
      simp [tfAux] at h
      have hrest := ih (k + 1) m h
      have h0 : rest.length - m = 0 := by omega
      rw [h0, List.drop_zero] at hrest
      have hlen : (b :: rest).length - m = 0 := by simp [List.length_cons]; omega
      rw [hlen, List.drop_zero, hb]
      simpa using hrest

/-! ### Facts about single heartbeat iterations -/

theorem heartbeat_iter_next_state (cfg : Config) (inp : HbInput) (fc : Nat)
    (s : ServiceState) (fc' : Nat) (s' : ServiceState) (evs : List Event)
    (h : heartbeat_iter cfg inp fc s = StepResult.next fc' s' evs) :
    s'.heartbeatStop = s.heartbeatStop ∧
    s'.heartbeatThread = s.heartbeatThread := by
  unfold heartbeat_iter at h
  by_cases h1 : inp.stopAtInterval
  · simp [h1] at h
  · by_cases h2 : cfg.ephemeral = false
    · simp [h1, h2] at h
      obtain ⟨_, rfl, _⟩ := h
      exact ⟨rfl, rfl⟩
    · by_cases h3 : inp.hbOk
      · simp [h1, h2, h3] at h
        obtain ⟨_, rfl, _⟩ := h
        exact ⟨rfl, rfl⟩
      · by_cases h4 : inp.stopAtRetry
        · simp [h1, h2, h3, h4] at h
        · by_cases h5 : cfg.heartbeat_max_failures ≤ fc + 1
          · by_cases h6 : (register_with_retry inp.reg cfg.register_retries s).2.1
            · simp [h1, h2, h3, h4, h5, h6] at h
              obtain ⟨_, rfl, _⟩ := h
              have hp := register_with_retry_preserve inp.reg cfg.register_retries s
              exact ⟨hp.1, hp.2.1⟩
            · simp [h1, h2, h3, h4, h5, h6] at h
              obtain ⟨_, rfl, _⟩ := h
              have hp := register_with_retry_preserve inp.reg cfg.register_retries s
              exact ⟨hp.1, hp.2.1⟩
          · simp [h1, h2, h3, h4, h5] at h
            obtain ⟨_, rfl, _⟩ := h
            exact ⟨rfl, rfl⟩

theorem heartbeat_iter_halt_state (cfg : Config) (inp : HbInput) (fc : Nat)
    (s : ServiceState) (s' : ServiceState) (evs : List Event)
    (h : heartbeat_iter cfg inp fc s = StepResult.halt s' evs) :
    s' = s ∧ fc ≤ tfAux fc (sendOutcomes evs) := by
  unfold heartbeat_iter at h
  by_cases h1 : inp.stopAtInterval
  · simp [h1] at h
    obtain ⟨rfl, rfl⟩ := h
    exact ⟨rfl, by simp [sendOutcomes, tfAux]⟩
  · by_cases h2 : cfg.ephemeral = false
    · simp [h1, h2] at h
    · by_cases h3 : inp.hbOk
      · simp [h1, h2, h3] at h
      · by_cases h4 : inp.stopAtRetry
        · simp [h1, h2, h3, h4] at h
          obtain ⟨rfl, rfl⟩ := h
          refine ⟨rfl, ?_⟩
          simp [sendOutcomes, tfAux]
        · by_cases h5 : cfg.heartbeat_max_failures ≤ fc + 1
          · by_cases h6 : (register_with_retry inp.reg cfg.register_retries s).2.1 <;>
              simp [h1, h2, h3, h4, h5, h6] at h
          · simp [h1, h2, h3, h4, h5] at h

theorem heartbeat_iter_next_counter (cfg : Config) (inp : HbInput) (fc : Nat)
    (s : ServiceState) (fc' : Nat) (s' : ServiceState) (evs : List Event)
    (h : heartbeat_iter cfg inp fc s = StepResult.next fc' s' evs) :
    fc' ≤ tfAux fc (sendOutcomes evs) := by
  unfold heartbeat_iter at h
  by_cases h1 : inp.stopAtInterval
  · simp [h1] at h
  · by_cases h2 : cfg.ephemeral = false
    · simp [h1, h2] at h
      obtain ⟨rfl, _, rfl⟩ := h
      simp [sendOutcomes, tfAux]
    · by_cases h3 : inp.hbOk
      · simp [h1, h2, h3] at h
        obtain ⟨rfl, _, rfl⟩ := h
        simp [sendOutcomes, tfAux]
      · by_cases h4 : inp.stopAtRetry
        · simp [h1, h2, h3, h4] at h
        · have hns := register_with_retry_no_send inp.reg cfg.register_retries s
          simp only [sendOutcomes] at hns
          by_cases h5 : cfg.heartbeat_max_failures ≤ fc + 1
          · by_cases h6 : (register_with_retry inp.reg cfg.register_retries s).2.1
            · simp [h1, h2, h3, h4, h5, h6] at h
              obtain ⟨rfl, _, rfl⟩ := h
              simp [sendOutcomes, hns, tfAux]
            · simp [h1, h2, h3, h4, h5, h6] at h
              obtain ⟨rfl, _, rfl⟩ := h
              simp [sendOutcomes, hns, tfAux]
          · simp [h1, h2, h3, h4, h5] at h
            obtain ⟨rfl, _, rfl⟩ := h
            simp [sendOutcomes, tfAux]

theorem heartbeat_run_counter_le (cfg : Config) :
    ∀ (inps : List HbInput) (fc : Nat) (s : ServiceState),
      (heartbeat_run cfg inps fc s).1 ≤
        tfAux fc (sendOutcomes (heartbeat_run cfg inps fc s).2.2) := by
  intro inps
  induction inps with
  | nil => intro fc s; simp [heartbeat_run, sendOutcomes, tfAux]
  | cons inp rest ih =>
    intro fc s
    cases hit : heartbeat_iter cfg inp fc s with
    | halt s' evs =>
      simp only [heartbeat_run, hit]
      exact (heartbeat_iter_halt_state cfg inp fc s s' evs hit).2
    | next fc' s' evs =>
      simp only [heartbeat_run, hit]
      have h1 := ih fc' s'
      have h2 := heartbeat_iter_next_counter cfg inp fc s fc' s' evs hit
      calc (heartbeat_run cfg rest fc' s').1
          ≤ tfAux fc' (sendOutcomes (heartbeat_run cfg rest fc' s').2.2) := h1
        _ ≤ tfAux (tfAux fc (sendOutcomes evs))
              (sendOutcomes (heartbeat_run cfg rest fc' s').2.2) :=
            tfAux_mono _ _ _ h2
        _ = tfAux fc (sendOutcomes
              (evs ++ (heartbeat_run cfg rest fc' s').2.2)) := by
            rw [sendOutcomes_append, tfAux_append]

/-! ### Claim theorems -/

/-- Claim C1: for every `retries >= 1`, if every registration attempt
fails, `register_with_retry` performs exactly `retries` add-instance
attempts and returns false (its trace is `failRun (retries - 1)`, which
holds `retries` add-instance events and `retries - 1` sleeps); if the
k-th attempt (k <= retries) is the first success, exactly `k` attempts
occur and it returns true (trace `succAfterFails (k - 1)`: `k` attempts,
`k - 1` sleeps).  In both trace shapes the delay sleep stands between
consecutive attempts, and the trace ends in a log event — never in a
sleep — so no sleep follows the final attempt. -/
theorem register_with_retry_attempt_counts (reg : Nat → Bool) (retries : Int)
    (s : ServiceState) (h1 : 1 ≤ retries) :
    ((∀ k : Nat, 1 ≤ k → (k : Int) ≤ retries → reg k = false) →
      register_with_retry reg retries s =
        ((init_client s).1, false,
          (init_client s).2 ++ failRun (retries.toNat - 1)) ∧
      countAdds (failRun (retries.toNat - 1)) = retries.toNat ∧
      countSleeps (failRun (retries.toNat - 1)) = retries.toNat - 1 ∧
      (failRun (retries.toNat - 1)).getLast? = some Event.logDebug) ∧
    (∀ k : Nat, 1 ≤ k → (k : Int) ≤ retries → reg k = true →
      (∀ j : Nat, 1 ≤ j → j < k → reg j = false) →
      register_with_retry reg retries s =
        ({ (init_client s).1 with registered := true }, true,
          (init_client s).2 ++ succAfterFails (k - 1)) ∧
      countAdds (succAfterFails (k - 1)) = k ∧
      countSleeps (succAfterFails (k - 1)) = k - 1 ∧
      (succAfterFails (k - 1)).getLast? = some Event.logInfo) := by
  have hn : ((retries.toNat : Int)) = retries := Int.toNat_of_nonneg (by omega)
  have hn1 : 1 ≤ retries.toNat := by omega
  constructor
  · intro hfail
    have hf : (retries.toNat - 1) + 1 = retries.toNat := by omega
    have hgo := register_go_allfail reg retries (retries.toNat - 1) 1
      (init_client s).1 (by omega) (fun k hk1 hk2 => hfail k hk1 (by omega))
    rw [hf] at hgo
    refine ⟨?_, ?_, ?_, (failRun_counts _).2.2⟩
    · simp only [register_with_retry]
      rw [hgo]
    · have := (failRun_counts (retries.toNat - 1)).1
      omega
    · exact (failRun_counts (retries.toNat - 1)).2.1
  · intro k hk1 hkr hks hprev
    have hgo := register_go_succCase reg retries retries.toNat 1 k
      (init_client s).1 hk1 (by omega) (by omega) hks
      (fun j hj1 hj2 => hprev j hj1 hj2)
    refine ⟨?_, ?_, ?_, (succAfterFails_counts _).2.2⟩
    · simp only [register_with_retry]
      rw [hgo]
    · have := (succAfterFails_counts (k - 1)).1
      omega
    · exact (succAfterFails_counts (k - 1)).2.1

/-- Witness for C1 at `retries = 2` with every attempt failing. -/
theorem register_with_retry_attempt_counts_witness :
    register_with_retry (fun _ => false) 2 initialState =
      ((init_client initialState).1, false,
        (init_client initialState).2 ++ failRun ((2 : Int).toNat - 1)) ∧
    countAdds (failRun ((2 : Int).toNat - 1)) = (2 : Int).toNat ∧
    countSleeps (failRun ((2 : Int).toNat - 1)) = (2 : Int).toNat - 1 ∧
    (failRun ((2 : Int).toNat - 1)).getLast? = some Event.logDebug :=
  (register_with_retry_attempt_counts (fun _ => false) 2 initialState
    (by norm_num)).1 (fun _ _ _ => rfl)

/-- Claim C2 counterexample: `stop` never consults the `registered` flag
(the code writes `_registered` but never reads it), and `stop` calls
`_remove_once` unconditionally.  Starting from a started, registered
state, the SECOND consecutive `stop` call still performs one
remove-instance registry call, contradicting the claim that the second
call produces no additional registry calls. -/
theorem stop_second_call_still_removes :
    countRemoves
      (stop true
        (stop true
          { clientInit := true, registered := true,
            heartbeatStop := false, heartbeatThread := true }).1).2 = 1 := by
  decide

/-- Claim C2 amended: `stop` is safe to call repeatedly but is not
idempotent in registry traffic — every call, from any state and with any
remove outcome, unconditionally issues exactly one remove-instance call
(and no add-instance or heartbeat calls); the `registered` flag is never
consulted. -/
theorem stop_always_attempts_remove (s : ServiceState) (ok : Bool) :
    countRemoves (stop ok s).2 = 1 ∧ countAdds (stop ok s).2 = 0 ∧
    sendOutcomes (stop ok s).2 = [] := by
  unfold stop remove_once
  by_cases ht : s.heartbeatThread <;> cases ok <;>
    simp [ht, countRemoves, countAdds, sendOutcomes, isRemove, isAdd]

theorem init_client_idem (s : ServiceState) :
    init_client ((init_client s).1) = ((init_client s).1, []) := by
  by_cases h : s.clientInit <;> simp [init_client, h]

theorem register_with_retry_false_state (reg : Nat → Bool) (retries : Int)
    (s : ServiceState)
    (h : (register_with_retry reg retries (init_client s).1).2.1 = false) :
    (register_with_retry reg retries (init_client s).1).1
      = (init_client s).1 := by
  rw [register_with_retry_false reg retries (init_client s).1 h,
    init_client_idem]

theorem start_state_ok_eph (reg : Nat → Bool) (cfg : Config)
    (s : ServiceState)
    (hok : (register_with_retry reg cfg.register_retries
      (init_client s).1).2.1 = true)
    (heph : cfg.ephemeral = true) :
    (start reg cfg s).1 =
      { (register_with_retry reg cfg.register_retries
          (init_client s).1).1 with
        heartbeatStop := false, heartbeatThread := true } := by
  simp [start, hok, heph]

theorem start_state_ok_noneph (reg : Nat → Bool) (cfg : Config)
    (s : ServiceState)
    (hok : (register_with_retry reg cfg.register_retries
      (init_client s).1).2.1 = true)
    (heph : cfg.ephemeral = false) :
    (start reg cfg s).1 =
      (register_with_retry reg cfg.register_retries (init_client s).1).1 := by
  simp [start, hok, heph]

theorem start_of_fail (reg : Nat → Bool) (cfg : Config) (s : ServiceState)
    (hok : (register_with_retry reg cfg.register_retries
      (init_client s).1).2.1 = false) :
    (start reg cfg s).1 =
      (register_with_retry reg cfg.register_retries (init_client s).1).1 ∧
    (start reg cfg s).2 =
      (init_client s).2 ++
        (register_with_retry reg cfg.register_retries
          (init_client s).1).2.2 ++ [Event.logError] := by
  simp [start, hok]

/-- Claim C5: `start` spawns the heartbeat thread iff `register_with_retry`
succeeds and the descriptor is ephemeral; when registration ultimately
fails, `start` leaves `registered = false`, spawns no heartbeat thread,
and its trace ends with the error log line. -/
theorem start_spawn_iff (reg : Nat → Bool) (cfg : Config) (s : ServiceState)
    (hthread : s.heartbeatThread = false) (hreg : s.registered = false) :
    ((start reg cfg s).1.heartbeatThread = true ↔
      ((register_with_retry reg cfg.register_retries (init_client s).1).2.1
          = true ∧
        cfg.ephemeral = true)) ∧
    ((register_with_retry reg cfg.register_retries (init_client s).1).2.1
        = false →
      (start reg cfg s).1.registered = false ∧
      (start reg cfg s).1.heartbeatThread = false ∧
      (start reg cfg s).2.getLast? = some Event.logError) := by
  have hi := init_client_fields s
  by_cases hok :
      (register_with_retry reg cfg.register_retries (init_client s).1).2.1
  · have hp :=
      register_with_retry_preserve reg cfg.register_retries (init_client s).1
    constructor
    · by_cases heph : cfg.ephemeral
      · rw [start_state_ok_eph reg cfg s hok heph]
        simp [hok, heph]
      · have heph' : cfg.ephemeral = false := by simpa using heph
        rw [start_state_ok_noneph reg cfg s hok heph']
        rw [hp.2.1, hi.2.2.2, hthread]
        simp [heph']
    · intro hfalse
      exact absurd hfalse (by simp [hok])
  · have hok' :
        (register_with_retry reg cfg.register_retries (init_client s).1).2.1
          = false := by simpa using hok
    have hfs := register_with_retry_false_state reg cfg.register_retries s hok'
    have hcomp := start_of_fail reg cfg s hok'
    constructor
    · rw [hcomp.1, hfs, hi.2.2.2, hthread]
      simp [hok']
    · intro _
      refine ⟨?_, ?_, ?_⟩
      · rw [hcomp.1, hfs, hi.2.1, hreg]
      · rw [hcomp.1, hfs, hi.2.2.2, hthread]
      · rw [hcomp.2, List.getLast?_concat]

/-- Witness for C5 with one failing registration attempt from the fresh
state. -/
theorem start_spawn_iff_witness :
    (start (fun _ => false) ⟨true, 1, 5⟩ initialState).1.registered = false ∧
    (start (fun _ => false) ⟨true, 1, 5⟩ initialState).1.heartbeatThread
      = false ∧
    (start (fun _ => false) ⟨true, 1, 5⟩ initialState).2.getLast?
      = some Event.logError :=
  (start_spawn_iff (fun _ => false) ⟨true, 1, 5⟩ initialState rfl rfl).2
    (by decide)

/-- Claim C6 counterexample: the stop signal is NOT one-shot — `start`
clears (`_heartbeat_stop.clear()`) a previously set stop signal when
registration succeeds and the descriptor is ephemeral, so an operation of
the controller does unset it. -/
theorem stop_signal_cleared_by_start :
    ({ clientInit := true, registered := false, heartbeatStop := true,
        heartbeatThread := false } : ServiceState).heartbeatStop = true ∧
    (start (fun _ => true)
        { ephemeral := true, register_retries := 1,
          heartbeat_max_failures := 5 }
        { clientInit := true, registered := false, heartbeatStop := true,
          heartbeatThread := false }).1.heartbeatStop = false := by
  decide

/-- Claim C6 amended: once set, the stop signal is unset only by `start`,
and only when its registration succeeds and the descriptor is ephemeral;
`stop`, `register_once`, `remove_once`, `register_with_retry` and every
heartbeat-loop iteration leave a set stop signal set. -/
theorem stop_signal_unset_only_by_start (s : ServiceState)
    (h : s.heartbeatStop = true) :
    (∀ ok, (stop ok s).1.heartbeatStop = true) ∧
    (∀ ok, (register_once ok s).1.heartbeatStop = true) ∧
    (∀ ok, (remove_once ok s).1.heartbeatStop = true) ∧
    (∀ (reg : Nat → Bool) (retries : Int),
      (register_with_retry reg retries s).1.heartbeatStop = true) ∧
    (∀ cfg inp fc fc' s' evs,
      heartbeat_iter cfg inp fc s = StepResult.next fc' s' evs →
      s'.heartbeatStop = true) ∧
    (∀ cfg inp fc s' evs,
      heartbeat_iter cfg inp fc s = StepResult.halt s' evs →
      s'.heartbeatStop = true) ∧
    (∀ (reg : Nat → Bool) (cfg : Config),
      (start reg cfg s).1.heartbeatStop = false →
      ((register_with_retry reg cfg.register_retries (init_client s).1).2.1
          = true ∧
        cfg.ephemeral = true)) := by
  have hi := init_client_fields s
  refine ⟨?_, ?_, ?_, ?_, ?_, ?_, ?_⟩
  · intro ok
    unfold stop remove_once
    by_cases ht : s.heartbeatThread <;> cases ok <;> simp [ht, h]
  · intro ok; cases ok <;> simp [register_once, h]
  · intro ok; cases ok <;> simp [remove_once, h]
  · intro reg retries
    rw [(register_with_retry_preserve reg retries s).1]
    exact h
  · intro cfg inp fc fc' s' evs hit
    rw [(heartbeat_iter_next_state cfg inp fc s fc' s' evs hit).1]
    exact h
  · intro cfg inp fc s' evs hit
    rw [(heartbeat_iter_halt_state cfg inp fc s s' evs hit).1]
    exact h
  · intro reg cfg hsf
    by_cases hok :
        (register_with_retry reg cfg.register_retries (init_client s).1).2.1
    · by_cases heph : cfg.ephemeral
      · exact ⟨hok, heph⟩
      · exfalso
        have hp := register_with_retry_preserve reg cfg.register_retries
          (init_client s).1
        rw [start_state_ok_noneph reg cfg s hok (by simpa using heph),
          hp.1, hi.2.2.1, h] at hsf
        exact absurd hsf (by simp)
    · exfalso
      have hok' :
          (register_with_retry reg cfg.register_retries (init_client s).1).2.1
            = false := by simpa using hok
      have hfs := register_with_retry_false_state reg cfg.register_retries
        s hok'
      rw [(start_of_fail reg cfg s hok').1, hfs, hi.2.2.1, h] at hsf
      exact absurd hsf (by simp)

/-- Witness for the amended C6 at a state with the stop signal set. -/
theorem stop_signal_unset_only_by_start_witness :
    (stop true
      { clientInit := true, registered := false, heartbeatStop := true,
        heartbeatThread := false }).1.heartbeatStop = true :=
  (stop_signal_unset_only_by_start
    { clientInit := true, registered := false, heartbeatStop := true,
      heartbeatThread := false } rfl).1 true

/-- Claim C9: for `retries <= 0`, `register_with_retry` performs zero
add-instance attempts and returns false, yet it still initializes the
client handle before returning. -/
theorem register_with_retry_nonpos (reg : Nat → Bool) (retries : Int)
    (s : ServiceState) (h : retries ≤ 0) :
    (register_with_retry reg retries s).2.1 = false ∧
    countAdds (register_with_retry reg retries s).2.2 = 0 ∧
    (register_with_retry reg retries s).1 = (init_client s).1 ∧
    (register_with_retry reg retries s).1.clientInit = true := by
  have h0 : retries.toNat = 0 := by omega
  refine ⟨?_, ?_, ?_, ?_⟩
  · simp [register_with_retry, h0, register_go]
  · simp only [register_with_retry, h0, register_go]
    simpa using (init_client_trace s).1
  · simp [register_with_retry, h0, register_go]
  · simp only [register_with_retry, h0, register_go]
    exact (init_client_fields s).1

/-- Witness for C9 at `retries = 0`. -/
theorem register_with_retry_nonpos_witness :
    (register_with_retry (fun _ => true) 0 initialState).2.1 = false ∧
    countAdds (register_with_retry (fun _ => true) 0 initialState).2.2 = 0 ∧
    (register_with_retry (fun _ => true) 0 initialState).1
      = (init_client initialState).1 ∧
    (register_with_retry (fun _ => true) 0 initialState).1.clientInit
      = true :=
  register_with_retry_nonpos (fun _ => true) 0 initialState (by norm_num)

/-- Claim C10: on failure, `register_once` and `remove_once` leave the
whole state — in particular the `registered` flag — unchanged: the flag
is assigned only after the registry call returns without raising. -/
theorem failed_registry_ops_preserve_registered (s : ServiceState) :
    (register_once false s).1.registered = s.registered ∧
    (remove_once false s).1.registered = s.registered ∧
    (register_once false s).1 = s ∧
    (remove_once false s).1 = s := by
  simp [register_once, remove_once]

/-- Claim C3: in a completed (non-cancelled) heartbeat iteration with an
ephemeral descriptor and positive `heartbeat_max_failures`, self-healing —
the best-effort remove followed by `register_with_retry`, visible as the
remove-instance event in the iteration trace — is invoked iff the
consecutive-failure counter (0 after a successful send, `fc + 1` after a
failed send) has reached `heartbeat_max_failures`; successful self-healing
resets the counter to zero, failed self-healing leaves the incremented
counter unchanged. -/
theorem heartbeat_selfheal_iff (cfg : Config) (inp : HbInput) (fc fc' : Nat)
    (s s' : ServiceState) (evs : List Event)
    (hmax : 1 ≤ cfg.heartbeat_max_failures) (heph : cfg.ephemeral = true)
    (h : heartbeat_iter cfg inp fc s = StepResult.next fc' s' evs) :
    (evs.any (fun e => isRemove e) = true ↔
      cfg.heartbeat_max_failures ≤ (if inp.hbOk then 0 else fc + 1)) ∧
    (evs.any (fun e => isRemove e) = true →
      fc' = if (register_with_retry inp.reg cfg.register_retries s).2.1
        then 0 else fc + 1) := by
  unfold heartbeat_iter at h
  by_cases h1 : inp.stopAtInterval
  · simp [h1] at h
  · by_cases h3 : inp.hbOk
    · simp [h1, heph, h3] at h
      obtain ⟨rfl, _, rfl⟩ := h
      refine ⟨?_, ?_⟩
      · simp [isRemove, h3]
        omega
      · intro hx
        simp [isRemove] at hx
    · by_cases h4 : inp.stopAtRetry
      · simp [h1, heph, h3, h4] at h
      · by_cases h5 : cfg.heartbeat_max_failures ≤ fc + 1
        · by_cases h6 : (register_with_retry inp.reg cfg.register_retries s).2.1
          · simp [h1, heph, h3, h4, h5, h6] at h
            obtain ⟨rfl, _, rfl⟩ := h
            refine ⟨?_, ?_⟩
            · simp [isRemove, h3, h5]
            · intro _
              simp [h6]
          · simp [h1, heph, h3, h4, h5, h6] at h
            obtain ⟨rfl, _, rfl⟩ := h
            refine ⟨?_, ?_⟩
            · simp [isRemove, h3, h5]
            · intro _
              simp [h6]
        · simp [h1, heph, h3, h4, h5] at h
          obtain ⟨rfl, _, rfl⟩ := h
          refine ⟨?_, ?_⟩
          · simp [isRemove, h3, h5]
          · intro hx
            simp [isRemove] at hx

/-- Witness for C3: a failed send brings the counter from 1 to the
threshold 2, self-healing runs and its re-registration succeeds. -/
theorem heartbeat_selfheal_iff_witness :
    ([Event.sendHeartbeat false, Event.logWarning, Event.logDebug,
        Event.logWarning, Event.removeInstance true,
        Event.addInstance true, Event.logInfo, Event.logInfo].any
        (fun e => isRemove e) = true ↔
      (2 : Nat) ≤ (if false then 0 else 1 + 1)) ∧
    ([Event.sendHeartbeat false, Event.logWarning, Event.logDebug,
        Event.logWarning, Event.removeInstance true,
        Event.addInstance true, Event.logInfo, Event.logInfo].any
        (fun e => isRemove e) = true →
      (0 : Nat) = if (register_with_retry (fun _ => true) 1
          ⟨true, false, false, true⟩).2.1 then 0 else 1 + 1) :=
  heartbeat_selfheal_iff ⟨true, 1, 2⟩ ⟨false, false, false, true, fun _ => true⟩
    1 0 ⟨true, false, false, true⟩ ⟨true, true, false, true⟩
    [Event.sendHeartbeat false, Event.logWarning, Event.logDebug,
      Event.logWarning, Event.removeInstance true,
      Event.addInstance true, Event.logInfo, Event.logInfo]
    (by norm_num) rfl rfl

/-- Claim C4: within one completed ephemeral iteration the
consecutive-failure counter is reset to zero by a successful send and
incremented by one by a failed send (after which self-healing may reset
it once it has reached the threshold); consequently, over any run of the
loop started at counter zero, the counter reaches
`heartbeat_max_failures` only when at least that many sends occurred and
the last `heartbeat_max_failures` of them all failed, with no
intervening success. -/
theorem heartbeat_counter_consecutive (cfg : Config) :
    (∀ (inp : HbInput) (fc : Nat) (s : ServiceState) (fc' : Nat)
        (s' : ServiceState) (evs : List Event),
      cfg.ephemeral = true →
      heartbeat_iter cfg inp fc s = StepResult.next fc' s' evs →
      (inp.hbOk = true → fc' = 0) ∧
      (inp.hbOk = false →
        fc' = fc + 1 ∨
          (cfg.heartbeat_max_failures ≤ fc + 1 ∧ fc' = 0))) ∧
    (∀ (inps : List HbInput) (s : ServiceState),
      cfg.heartbeat_max_failures ≤ (heartbeat_run cfg inps 0 s).1 →
      cfg.heartbeat_max_failures ≤
        (sendOutcomes (heartbeat_run cfg inps 0 s).2.2).length ∧
      ((sendOutcomes (heartbeat_run cfg inps 0 s).2.2).drop
          ((sendOutcomes (heartbeat_run cfg inps 0 s).2.2).length -
            cfg.heartbeat_max_failures)).all (fun b => !b) = true) := by
  constructor
  · intro inp fc s fc' s' evs heph h
    unfold heartbeat_iter at h
    by_cases h1 : inp.stopAtInterval
    · simp [h1] at h
    · by_cases h3 : inp.hbOk
      · simp [h1, heph, h3] at h
        obtain ⟨rfl, _, _⟩ := h
        exact ⟨fun _ => rfl, fun hc => absurd h3 (by simp [hc])⟩
      · by_cases h4 : inp.stopAtRetry
        · simp [h1, heph, h3, h4] at h
        · by_cases h5 : cfg.heartbeat_max_failures ≤ fc + 1
          · by_cases h6 : (register_with_retry inp.reg cfg.register_retries s).2.1
            · simp [h1, heph, h3, h4, h5, h6] at h
              obtain ⟨rfl, _, _⟩ := h
              exact ⟨fun hc => absurd hc (by simp [h3]),
                fun _ => Or.inr ⟨h5, rfl⟩⟩
            · simp [h1, heph, h3, h4, h5, h6] at h
              obtain ⟨rfl, _, _⟩ := h
              exact ⟨fun hc => absurd hc (by simp [h3]), fun _ => Or.inl rfl⟩
          · simp [h1, heph, h3, h4, h5] at h
            obtain ⟨rfl, _, _⟩ := h
            exact ⟨fun hc => absurd hc (by simp [h3]), fun _ => Or.inl rfl⟩
  · intro inps s hreach
    have hle := heartbeat_run_counter_le cfg inps 0 s
    have h1 : cfg.heartbeat_max_failures ≤
        tfAux 0 (sendOutcomes (heartbeat_run cfg inps 0 s).2.2) :=
      le_trans hreach hle
    constructor
    · have := tfAux_le (sendOutcomes (heartbeat_run cfg inps 0 s).2.2) 0
      omega
    · exact tfAux_drop _ 0 _ h1

/-- Witness for C4: two consecutive failed sends reach the threshold 2;
both recorded sends failed. -/
theorem heartbeat_counter_consecutive_witness :
    (2 : Nat) ≤
      (sendOutcomes (heartbeat_run ⟨true, 1, 2⟩
        [⟨false, false, false, true, fun _ => false⟩,
          ⟨false, false, false, true, fun _ => false⟩] 0
        ⟨true, false, false, true⟩).2.2).length ∧
    ((sendOutcomes (heartbeat_run ⟨true, 1, 2⟩
        [⟨false, false, false, true, fun _ => false⟩,
          ⟨false, false, false, true, fun _ => false⟩] 0
        ⟨true, false, false, true⟩).2.2).drop
        ((sendOutcomes (heartbeat_run ⟨true, 1, 2⟩
          [⟨false, false, false, true, fun _ => false⟩,
            ⟨false, false, false, true, fun _ => false⟩] 0
          ⟨true, false, false, true⟩).2.2).length - 2)).all
      (fun b => !b) = true :=
  (heartbeat_counter_consecutive ⟨true, 1, 2⟩).2
    [⟨false, false, false, true, fun _ => false⟩,
      ⟨false, false, false, true, fun _ => false⟩]
    ⟨true, false, false, true⟩ (by decide)

/-- Claim C7 counterexample: the best-effort remove inside heartbeat
self-healing (`except Exception: pass`, line 205 of core.py) is a caught
error that produces no log line at all, re-raises nothing, and is not
the stop-cleanup double guard — so a caught error outside stop's cleanup
path is silently dropped. -/
theorem silent_catch_outside_stop_cleanup :
    ∃ c ∈ catchSites, c.logsWarningOrAbove = false ∧ c.reraises = false ∧
      c.isStopCleanupDeregGuard = false := by
  refine ⟨⟨"self-healing remove_naming_instance failure",
    205, false, false, false⟩, ?_, rfl, rfl, rfl⟩
  simp [catchSites]

/-- Claim C7 amended: every except-handler in `NacosService` logs at
warning severity or above, or re-raises, except three silent sites: the
double-guarded deregistration cleanup in `stop`, the best-effort remove
inside heartbeat self-healing (line 205), and the invocation of the
previously installed signal handler (line 268). -/
theorem catch_sites_logged_or_designated :
    (catchSites.all fun c =>
      c.logsWarningOrAbove || c.reraises || c.isStopCleanupDeregGuard ||
        (c.line == 205) || (c.line == 268)) = true := by
  decide

/-- Claim C8: the decorator's activation check parses
`service_addr = "10.0.0.1:8080"` to ip `10.0.0.1` and port 8080, and an
addr without a colon is rejected before any `NacosService` is
constructed (hence before any registry call): it raises `ValueError`, or
in permissive mode runs the wrapped work directly without registration. -/
theorem wrapper_check_parses_and_rejects :
    wrapper_check true true "1.2.3.4:8848".data "svc".data
        "10.0.0.1:8080".data =
      WrapperAction.activate "10.0.0.1".data 8080 ∧
    wrapper_check true true "1.2.3.4:8848".data "svc".data
        "badaddr".data = WrapperAction.raiseValueError ∧
    wrapper_check true false "1.2.3.4:8848".data "svc".data
        "badaddr".data = WrapperAction.runDirect := by
  exact ⟨by decide, by decide, by decide⟩

end NacosX
